import Mathlib

/-! Shallow embedding of the campus event-management backend: the data model
of Backend/app/models.py and the workflow and reporting operations of
Backend/app/api/colleges.py, students.py, events.py and reports.py.

Conventions of the embedding:
* Record ids are opaque identifiers.  The source draws random UUID strings;
  only identity matters, so ids are naturals issued from a per-store counter.
* Timestamps that no verified claim observes are omitted; a feedback's
  submission time is kept (the participation report surfaces it) and is an
  external input to `submitFeedback`, mirroring `datetime.utcnow`.
* Python floats are idealised as exact rationals; Python's `round(x, 2)`
  becomes rounding to an integer number of hundredths.
* Each handler's JSON error response is modelled by an `ApiError` value
  carrying the source's message; the constructor records the error class of
  the design's taxonomy and determines the HTTP status. -/

namespace EventMgmt

structure College where
  id : Nat
  name : String
  deriving DecidableEq

structure Student where
  id : Nat
  collegeId : Nat
  name : String
  email : String
  deriving DecidableEq

structure Event where
  id : Nat
  collegeId : Nat
  title : String
  description : String
  eventType : String
  capacity : Int
  deriving DecidableEq

structure Registration where
  studentId : Nat
  eventId : Nat
  deriving DecidableEq

structure Attendance where
  studentId : Nat
  eventId : Nat
  method : String
  deriving DecidableEq

structure Feedback where
  studentId : Nat
  eventId : Nat
  rating : Int
  comment : String
  submittedAt : Nat
  deriving DecidableEq

/-- The persistent store: the six tables of models.py, in insertion order,
plus the id counter. -/
structure Store where
  nextId : Nat
  colleges : List College
  students : List Student
  events : List Event
  registrations : List Registration
  attendances : List Attendance
  feedbacks : List Feedback
  deriving DecidableEq

def emptyStore : Store := ⟨0, [], [], [], [], [], []⟩

/-- Error responses of the API, one constructor per class of the error
taxonomy, carrying the source's message string. -/
inductive ApiError where
  | validationError (msg : String)
  | notFoundError (msg : String)
  | conflictError (msg : String)
  | forbiddenError (msg : String)
  | capacityError (msg : String)
  deriving DecidableEq

inductive ErrorKind where
  | validation
  | notFound
  | conflict
  | forbidden
  | capacity
  deriving DecidableEq

def ApiError.kind : ApiError → ErrorKind
  | .validationError _ => .validation
  | .notFoundError _ => .notFound
  | .conflictError _ => .conflict
  | .forbiddenError _ => .forbidden
  | .capacityError _ => .capacity

/-- HTTP status of each error class (section 7 of the design). -/
def ApiError.status : ApiError → Nat
  | .validationError _ => 400
  | .notFoundError _ => 404
  | .conflictError _ => 409
  | .forbiddenError _ => 403
  | .capacityError _ => 400

/-- The error class of a handler result, `none` on success. -/
def errKind {α : Type} : Except ApiError α → Option ErrorKind
  | .error e => some e.kind
  | .ok _ => none

/-! ## Lookups and counts (the `query.get` / `filter_by` / `count` calls) -/

def findCollege (s : Store) (cid : Nat) : Option College :=
  s.colleges.find? (fun c => c.id == cid)

def findStudent (s : Store) (sid : Nat) : Option Student :=
  s.students.find? (fun st => st.id == sid)

def findStudentByEmail (s : Store) (email : String) : Option Student :=
  s.students.find? (fun st => st.email == email)

def findEvent (s : Store) (eid : Nat) : Option Event :=
  s.events.find? (fun e => e.id == eid)

def findRegistration (s : Store) (sid eid : Nat) : Option Registration :=
  s.registrations.find? (fun r => r.studentId == sid && r.eventId == eid)

def findAttendance (s : Store) (sid eid : Nat) : Option Attendance :=
  s.attendances.find? (fun a => a.studentId == sid && a.eventId == eid)

def findFeedback (s : Store) (sid eid : Nat) : Option Feedback :=
  s.feedbacks.find? (fun f => f.studentId == sid && f.eventId == eid)

def regCount (s : Store) (eid : Nat) : Nat :=
  (s.registrations.filter (fun r => r.eventId == eid)).length

def attCountEvent (s : Store) (eid : Nat) : Nat :=
  (s.attendances.filter (fun a => a.eventId == eid)).length

def fbCountEvent (s : Store) (eid : Nat) : Nat :=
  (s.feedbacks.filter (fun f => f.eventId == eid)).length

def pairRegCount (s : Store) (sid eid : Nat) : Nat :=
  (s.registrations.filter (fun r => r.studentId == sid && r.eventId == eid)).length

def pairAttCount (s : Store) (sid eid : Nat) : Nat :=
  (s.attendances.filter (fun a => a.studentId == sid && a.eventId == eid)).length

def pairFbCount (s : Store) (sid eid : Nat) : Nat :=
  (s.feedbacks.filter (fun f => f.studentId == sid && f.eventId == eid)).length

def studentRegs (s : Store) (sid : Nat) : List Registration :=
  s.registrations.filter (fun r => r.studentId == sid)

def studentAtts (s : Store) (sid : Nat) : List Attendance :=
  s.attendances.filter (fun a => a.studentId == sid)

def studentFbs (s : Store) (sid : Nat) : List Feedback :=
  s.feedbacks.filter (fun f => f.studentId == sid)

def studentAttCount (s : Store) (sid : Nat) : Nat :=
  (studentAtts s sid).length

/-! ## Entity-store write operations (colleges.py, students.py, events.py) -/

/-- `create_college` (colleges.py lines 6-22): an empty name is falsy, hence
rejected; otherwise the college is stored. -/
def createCollege (s : Store) (name : String) : Except ApiError (Store × College) :=
  if name = "" then .error (.validationError "College name is required")
  else
    .ok ({ s with nextId := s.nextId + 1, colleges := s.colleges ++ [⟨s.nextId, name⟩] },
      ⟨s.nextId, name⟩)

/-- `create_student` (students.py lines 6-36): college must exist, email must
be fresh. -/
def createStudent (s : Store) (collegeId : Nat) (name email : String) :
    Except ApiError (Store × Student) :=
  match findCollege s collegeId with
  | none => .error (.notFoundError "College not found")
  | some _ =>
    match findStudentByEmail s email with
    | some _ => .error (.conflictError "Student with this email already exists")
    | none =>
      .ok ({ s with
             nextId := s.nextId + 1
             students := s.students ++ [⟨s.nextId, collegeId, name, email⟩] },
        ⟨s.nextId, collegeId, name, email⟩)

/-- `create_event` (events.py lines 7-39), after request parsing: the handler
checks only field presence and datetime format (boundary concerns), then
stores the event.  Capacity is stored exactly as supplied — the source
performs no positivity or range check and does not verify the college. -/
def createEvent (s : Store) (collegeId : Nat) (title description eventType : String)
    (capacity : Int) : Store × Event :=
  let e : Event :=
    { id := s.nextId, collegeId := collegeId, title := title,
      description := description, eventType := eventType, capacity := capacity }
  ({ s with nextId := s.nextId + 1, events := s.events ++ [e] }, e)

/-! ## Workflow operations (events.py) -/

/-- `register_for_event` (events.py lines 60-100): event lookup, student
lookup, duplicate check, then capacity check `count >= event.capacity`. -/
def register (s : Store) (eventId studentId : Nat) :
    Except ApiError (Store × Registration) :=
  match findEvent s eventId with
  | none => .error (.notFoundError "Event not found")
  | some event =>
    match findStudent s studentId with
    | none => .error (.notFoundError "Student not found")
    | some _ =>
      match findRegistration s studentId eventId with
      | some _ => .error (.conflictError "Student already registered for this event")
      | none =>
        if event.capacity ≤ (regCount s eventId : Int) then
          .error (.capacityError "Event is at full capacity")
        else
          .ok ({ s with registrations := s.registrations ++ [⟨studentId, eventId⟩] },
            ⟨studentId, eventId⟩)

/-- `mark_attendance` (events.py lines 102-140): requires a registration for
the pair, rejects a duplicate; it never looks the student or event up. -/
def markAttendance (s : Store) (eventId studentId : Nat) (method : String) :
    Except ApiError (Store × Attendance) :=
  match findRegistration s studentId eventId with
  | none => .error (.forbiddenError "Student must be registered to mark attendance")
  | some _ =>
    match findAttendance s studentId eventId with
    | some _ => .error (.conflictError "Attendance already marked for this event")
    | none =>
      .ok ({ s with attendances := s.attendances ++ [⟨studentId, eventId, method⟩] },
        ⟨studentId, eventId, method⟩)

/-- `submit_feedback` (events.py lines 142-185): `rating` comes from JSON and
may be absent; `not rating` also fires on a zero rating (Python falsiness),
then the range check runs, then the attendance and duplicate checks.  `now`
stands for `datetime.utcnow`. -/
def submitFeedback (s : Store) (eventId studentId : Nat) (rating : Option Int)
    (comment : String) (now : Nat) : Except ApiError (Store × Feedback) :=
  match rating with
  | none => .error (.validationError "student_id and rating are required")
  | some r =>
    if r = 0 then .error (.validationError "student_id and rating are required")
    else if ¬ (1 ≤ r ∧ r ≤ 5) then
      .error (.validationError "Rating must be between 1 and 5")
    else
      match findAttendance s studentId eventId with
      | none => .error (.forbiddenError "Student must have attended to submit feedback")
      | some _ =>
        match findFeedback s studentId eventId with
        | some _ => .error (.conflictError "Feedback already submitted for this event")
        | none =>
          .ok ({ s with feedbacks := s.feedbacks ++ [⟨studentId, eventId, r, comment, now⟩] },
            ⟨studentId, eventId, r, comment, now⟩)

/-! ## Reporting (reports.py) -/

/-- Python's `round(x, 2)` on the idealised rationals: round to hundredths. -/
def roundTo2 (q : ℚ) : ℚ := ((round (q * 100) : ℤ) : ℚ) / 100

/-- Insert keeping a descending key order (model of SQL `ORDER BY ... DESC`). -/
def insertDescBy {α : Type} (key : α → Nat) (x : α) : List α → List α
  | [] => [x]
  | y :: l => if key y < key x then x :: y :: l else y :: insertDescBy key x l

def sortDescBy {α : Type} (key : α → Nat) : List α → List α
  | [] => []
  | x :: l => insertDescBy key x (sortDescBy key l)

structure PopularityRow where
  eventId : Nat
  title : String
  eventType : String
  capacity : Int
  registrationCount : Nat
  deriving DecidableEq

def collegeEvents (s : Store) : Option Nat → List Event
  | none => s.events
  | some cid => s.events.filter (fun e => e.collegeId == cid)

def popRowOf (s : Store) (e : Event) : PopularityRow :=
  { eventId := e.id, title := e.title, eventType := e.eventType,
    capacity := e.capacity, registrationCount := regCount s e.id }

/-- `event_popularity` (reports.py lines 7-40): the inner join of events with
registrations keeps exactly the events having at least one registration; the
grouped rows are ordered by registration count descending. -/
def eventPopularity (s : Store) (collegeId : Option Nat) : List PopularityRow :=
  sortDescBy PopularityRow.registrationCount
    (((collegeEvents s collegeId).filter (fun e => regCount s e.id != 0)).map (popRowOf s))

structure AttendanceReport where
  eventId : Nat
  registrationCount : Nat
  attendanceCount : Nat
  attendancePercentage : ℚ
  averageRating : Option ℚ
  feedbackCount : Nat
  deriving DecidableEq

def eventRatings (s : Store) (eid : Nat) : List Int :=
  (s.feedbacks.filter (fun f => f.eventId == eid)).map Feedback.rating

/-- `event_attendance` (reports.py lines 42-78).  The percentage is
`round(count_a / count_r * 100, 2)` with 0 when there are no registrations;
`AVG(rating)` yields NULL on an empty set, and Python's truthiness test
`if avg_rating_result` also maps an exact zero average to `None`. -/
def eventAttendance (s : Store) (eventId : Nat) : Except ApiError AttendanceReport :=
  match findEvent s eventId with
  | none => .error (.notFoundError "Event not found")
  | some event =>
    .ok { eventId := event.id
          registrationCount := regCount s eventId
          attendanceCount := attCountEvent s eventId
          attendancePercentage := roundTo2 (if 0 < regCount s eventId then
            (attCountEvent s eventId : ℚ) / (regCount s eventId : ℚ) * 100 else 0)
          averageRating :=
            match (if (eventRatings s eventId).isEmpty then (none : Option ℚ)
              else some (((eventRatings s eventId).map (fun r => (r : ℚ))).sum /
                ((eventRatings s eventId).length : ℚ))) with
            | none => none
            | some a => if a = 0 then none else some (roundTo2 a)
          feedbackCount := fbCountEvent s eventId }

structure FeedbackEntry where
  eventTitle : String
  rating : Int
  comment : String
  submittedAt : Nat
  deriving DecidableEq

structure ParticipationReport where
  studentId : Nat
  eventsRegistered : Nat
  eventsAttended : Nat
  attendanceRate : ℚ
  feedbacksGiven : Nat
  registeredEvents : List Nat
  attendedEvents : List Nat
  feedbacks : List FeedbackEntry
  deriving DecidableEq

/-- Title of the event a feedback row points at (`feedback.event.title`);
referential integrity guarantees the event exists in any state the source
can reach. -/
def eventTitleOf (s : Store) (eid : Nat) : String :=
  ((findEvent s eid).map Event.title).getD ""

def feedbackEntryOf (s : Store) (f : Feedback) : FeedbackEntry :=
  { eventTitle := eventTitleOf s f.eventId, rating := f.rating,
    comment := f.comment, submittedAt := f.submittedAt }

/-- `student_participation` (reports.py lines 80-118): the rate is
`round(attended / registered * 100, 2)` guarded by the truthiness of the
registered list, so an unregistered student gets 0. -/
def studentParticipation (s : Store) (studentId : Nat) :
    Except ApiError ParticipationReport :=
  match findStudent s studentId with
  | none => .error (.notFoundError "Student not found")
  | some student =>
    .ok { studentId := student.id
          eventsRegistered := ((studentRegs s studentId).map Registration.eventId).length
          eventsAttended := ((studentAtts s studentId).map Attendance.eventId).length
          attendanceRate :=
            if ((studentRegs s studentId).map Registration.eventId).isEmpty then 0
            else roundTo2
              ((((studentAtts s studentId).map Attendance.eventId).length : ℚ) /
                (((studentRegs s studentId).map Registration.eventId).length : ℚ) * 100)
          feedbacksGiven := ((studentFbs s studentId).map (feedbackEntryOf s)).length
          registeredEvents := (studentRegs s studentId).map Registration.eventId
          attendedEvents := (studentAtts s studentId).map Attendance.eventId
          feedbacks := (studentFbs s studentId).map (feedbackEntryOf s) }

structure ActiveStudentRow where
  studentId : Nat
  name : String
  email : String
  attendanceCount : Nat
  deriving DecidableEq

def collegeStudents (s : Store) : Option Nat → List Student
  | none => s.students
  | some cid => s.students.filter (fun st => st.collegeId == cid)

def activeRowOf (s : Store) (st : Student) : ActiveStudentRow :=
  { studentId := st.id, name := st.name, email := st.email,
    attendanceCount := studentAttCount s st.id }

/-- `top_active_students` (reports.py lines 120-153): the inner join of
students with attendances keeps exactly the students having at least one
attendance; rows are ordered by attendance count descending and truncated
to `limit`. -/
def topActiveStudents (s : Store) (collegeId : Option Nat) (limit : Nat) :
    List ActiveStudentRow :=
  (sortDescBy ActiveStudentRow.attendanceCount
    (((collegeStudents s collegeId).filter (fun st => studentAttCount s st.id != 0)).map
      (activeRowOf s))).take limit

/-! ## Reachability: the states the API can produce from an empty store -/

inductive Reachable : Store → Prop where
  | empty : Reachable emptyStore
  | step_createCollege {s s' : Store} {c : College} (name : String)
      (h : Reachable s) (hop : createCollege s name = .ok (s', c)) : Reachable s'
  | step_createStudent {s s' : Store} {st : Student} (cid : Nat) (name email : String)
      (h : Reachable s) (hop : createStudent s cid name email = .ok (s', st)) :
      Reachable s'
  | step_createEvent {s : Store} (cid : Nat) (title description eventType : String)
      (capacity : Int) (h : Reachable s) :
      Reachable (createEvent s cid title description eventType capacity).1
  | step_register {s s' : Store} {r : Registration} (eid sid : Nat)
      (h : Reachable s) (hop : register s eid sid = .ok (s', r)) : Reachable s'
  | step_markAttendance {s s' : Store} {a : Attendance} (eid sid : Nat) (m : String)
      (h : Reachable s) (hop : markAttendance s eid sid m = .ok (s', a)) : Reachable s'
  | step_submitFeedback {s s' : Store} {f : Feedback} (eid sid : Nat) (r : Option Int)
      (c : String) (t : Nat) (h : Reachable s)
      (hop : submitFeedback s eid sid r c t = .ok (s', f)) : Reachable s'

/-- Rows in weakly decreasing key order (the shape `ORDER BY key DESC` yields). -/
def SortedDescOn {α : Type} (key : α → Nat) (l : List α) : Prop :=
  l.Pairwise (fun a b => key b ≤ key a)

/-- Structural invariants every API-reachable store satisfies. -/
structure StoreInv (s : Store) : Prop where
  event_id_lt : ∀ e ∈ s.events, e.id < s.nextId
  event_ids_nodup : (s.events.map Event.id).Nodup
  reg_event_exists : ∀ r ∈ s.registrations, ∃ e ∈ s.events, e.id = r.eventId
  capacity_bound : ∀ e ∈ s.events, 0 ≤ e.capacity → (regCount s e.id : Int) ≤ e.capacity
  reg_unique : ∀ sid eid, pairRegCount s sid eid ≤ 1
  att_unique : ∀ sid eid, pairAttCount s sid eid ≤ 1
  fb_unique : ∀ sid eid, pairFbCount s sid eid ≤ 1
  att_has_reg : ∀ a ∈ s.attendances, ∃ r ∈ s.registrations,
    r.studentId = a.studentId ∧ r.eventId = a.eventId
  fb_has_att : ∀ f ∈ s.feedbacks, ∃ a ∈ s.attendances,
    a.studentId = f.studentId ∧ a.eventId = f.eventId

/-! ## Concrete stores for witnesses and counterexamples -/

/-- The store after `createCollege` on the empty store: one college, id 0. -/
def oneCollegeStore : Store := ⟨1, [⟨0, "U1"⟩], [], [], [], [], []⟩

/-- The spec's example scenario: college U1, students A (id 1) and B (id 2),
event id 3 of capacity 2 with both registered, A attended and left a
rating-5 feedback. -/
def scenarioStore : Store :=
  ⟨4, [⟨0, "U1"⟩],
    [⟨1, 0, "A", "a@u1.edu"⟩, ⟨2, 0, "B", "b@u1.edu"⟩],
    [⟨3, 0, "TechFest", "", "Workshop", 2⟩],
    [⟨1, 3⟩, ⟨2, 3⟩],
    [⟨1, 3, "manual"⟩],
    [⟨1, 3, 5, "great", 10⟩]⟩

/-- Three students registered for one event (id 4), one attended, no feedback. -/
def thirdAttendedStore : Store :=
  ⟨9, [⟨0, "U"⟩],
    [⟨1, 0, "A", "a@u.edu"⟩, ⟨2, 0, "B", "b@u.edu"⟩, ⟨3, 0, "C", "c@u.edu"⟩],
    [⟨4, 0, "E", "", "Workshop", 5⟩],
    [⟨1, 4⟩, ⟨2, 4⟩, ⟨3, 4⟩],
    [⟨1, 4, "manual"⟩],
    []⟩

/-- One student (id 1) registered for three events, having attended one. -/
def threeRegStore : Store :=
  ⟨9, [⟨0, "U"⟩],
    [⟨1, 0, "A", "a@u.edu"⟩],
    [⟨2, 0, "E1", "", "W", 5⟩, ⟨3, 0, "E2", "", "W", 5⟩, ⟨4, 0, "E3", "", "W", 5⟩],
    [⟨1, 2⟩, ⟨1, 3⟩, ⟨1, 4⟩],
    [⟨1, 2, "manual"⟩],
    []⟩

/-- One event (id 1) with no registrations at all. -/
def idleEventStore : Store :=
  ⟨2, [⟨0, "U"⟩], [], [⟨1, 0, "E", "", "Workshop", 5⟩], [], [], []⟩

/-- One student (id 1) who never registered for anything. -/
def freshStudentStore : Store :=
  ⟨2, [⟨0, "U"⟩], [⟨1, 0, "A", "a@u.edu"⟩], [], [], [], []⟩

/-- One student (id 1) and one event (id 2, capacity 3), no registrations. -/
def regReadyStore : Store :=
  ⟨3, [⟨0, "U"⟩], [⟨1, 0, "A", "a@u.edu"⟩], [⟨2, 0, "E", "", "Workshop", 3⟩], [], [], []⟩

/-- The store `createEvent` yields when handed capacity -1: one college and
one event whose stored capacity is negative. -/
def negCapStore : Store := ⟨2, [⟨0, "U1"⟩], [], [⟨1, 0, "E", "", "W", -1⟩], [], [], []⟩

/-- College plus students A (id 1) and B (id 2). -/
def twoStudentStore : Store :=
  ⟨3, [⟨0, "U1"⟩], [⟨1, 0, "A", "a@u1.edu"⟩, ⟨2, 0, "B", "b@u1.edu"⟩], [], [], [], []⟩

/-- `twoStudentStore` plus an event (id 3) of capacity 1. -/
def capOneStore : Store :=
  ⟨4, [⟨0, "U1"⟩], [⟨1, 0, "A", "a@u1.edu"⟩, ⟨2, 0, "B", "b@u1.edu"⟩],
    [⟨3, 0, "E", "", "W", 1⟩], [], [], []⟩

/-- `capOneStore` after student 1 registered: the event is at capacity. -/
def capFullStore : Store :=
  ⟨4, [⟨0, "U1"⟩], [⟨1, 0, "A", "a@u1.edu"⟩, ⟨2, 0, "B", "b@u1.edu"⟩],
    [⟨3, 0, "E", "", "W", 1⟩], [⟨1, 3⟩], [], []⟩

/-! ## List helpers -/

theorem filter_len_zero_of_find_none {α : Type} {p : α → Bool} {l : List α}
    (h : l.find? p = none) : (l.filter p).length = 0 := by
  rw [List.find?_eq_none] at h
  rw [List.filter_eq_nil_iff.mpr h]
  rfl

theorem find_none_of_filter_len_zero {α : Type} {p : α → Bool} {l : List α}
    (h : (l.filter p).length = 0) : l.find? p = none := by
  rw [List.find?_eq_none]
  intro x hx hpx
  rw [List.length_eq_zero, List.filter_eq_nil_iff] at h
  exact absurd hpx (by simp [h x hx])

theorem length_filter_append {α : Type} (l₁ l₂ : List α) (p : α → Bool) :
    ((l₁ ++ l₂).filter p).length = (l₁.filter p).length + (l₂.filter p).length := by
  simp [List.filter_append]

theorem length_filter_singleton {α : Type} (a : α) (p : α → Bool) :
    ([a].filter p).length = if p a then 1 else 0 := by
  by_cases h : p a <;> simp [List.filter, h]

/-! ## Inversion of the write operations on success -/

theorem createCollege_ok {s s' : Store} {c : College} {name : String}
    (h : createCollege s name = .ok (s', c)) :
    name ≠ "" ∧ c = ⟨s.nextId, name⟩ ∧
      s' = { s with nextId := s.nextId + 1, colleges := s.colleges ++ [⟨s.nextId, name⟩] } := by
  unfold createCollege at h
  by_cases hn : name = ""
  · rw [if_pos hn] at h; exact absurd h (by simp)
  · rw [if_neg hn] at h
    simp at h
    obtain ⟨h1, h2⟩ := h
    subst h1; subst h2
    exact ⟨hn, rfl, rfl⟩

theorem createStudent_ok {s s' : Store} {st : Student} {cid : Nat} {name email : String}
    (h : createStudent s cid name email = .ok (s', st)) :
    (∃ c, findCollege s cid = some c) ∧ findStudentByEmail s email = none ∧
      st = ⟨s.nextId, cid, name, email⟩ ∧
      s' = { s with
             nextId := s.nextId + 1
             students := s.students ++ [⟨s.nextId, cid, name, email⟩] } := by
  unfold createStudent at h
  cases hc : findCollege s cid with
  | none => rw [hc] at h; exact absurd h (by simp)
  | some c =>
    rw [hc] at h
    cases he : findStudentByEmail s email with
    | some st0 => rw [he] at h; exact absurd h (by simp)
    | none =>
      rw [he] at h
      simp at h
      obtain ⟨h1, h2⟩ := h
      subst h1; subst h2
      exact ⟨⟨c, rfl⟩, rfl, rfl, rfl⟩

theorem register_ok {s s' : Store} {rg : Registration} {eid sid : Nat}
    (h : register s eid sid = .ok (s', rg)) :
    ∃ e, findEvent s eid = some e ∧ (∃ st, findStudent s sid = some st) ∧
      findRegistration s sid eid = none ∧ (regCount s eid : Int) < e.capacity ∧
      rg = ⟨sid, eid⟩ ∧
      s' = { s with registrations := s.registrations ++ [⟨sid, eid⟩] } := by
  unfold register at h
  cases he : findEvent s eid with
  | none => rw [he] at h; exact absurd h (by simp)
  | some e =>
    rw [he] at h
    cases hs : findStudent s sid with
    | none => rw [hs] at h; exact absurd h (by simp)
    | some st =>
      rw [hs] at h
      cases hr : findRegistration s sid eid with
      | some r0 => rw [hr] at h; exact absurd h (by simp)
      | none =>
        rw [hr] at h
        by_cases hc : e.capacity ≤ (regCount s eid : Int)
        · simp [hc] at h
        · simp [hc] at h
          obtain ⟨h1, h2⟩ := h
          subst h1; subst h2
          exact ⟨e, rfl, ⟨st, rfl⟩, rfl, by omega, rfl, rfl⟩

theorem markAttendance_ok {s s' : Store} {a : Attendance} {eid sid : Nat} {m : String}
    (h : markAttendance s eid sid m = .ok (s', a)) :
    ∃ r0, findRegistration s sid eid = some r0 ∧ findAttendance s sid eid = none ∧
      a = ⟨sid, eid, m⟩ ∧
      s' = { s with attendances := s.attendances ++ [⟨sid, eid, m⟩] } := by
  unfold markAttendance at h
  cases hr : findRegistration s sid eid with
  | none => rw [hr] at h; exact absurd h (by simp)
  | some r0 =>
    rw [hr] at h
    cases ha : findAttendance s sid eid with
    | some a0 => rw [ha] at h; exact absurd h (by simp)
    | none =>
      rw [ha] at h
      simp at h
      obtain ⟨h1, h2⟩ := h
      subst h1; subst h2
      exact ⟨r0, rfl, rfl, rfl, rfl⟩

theorem submitFeedback_ok {s s' : Store} {f : Feedback} {eid sid : Nat}
    {rat : Option Int} {c : String} {t : Nat}
    (h : submitFeedback s eid sid rat c t = .ok (s', f)) :
    ∃ r, rat = some r ∧ r ≠ 0 ∧ (1 ≤ r ∧ r ≤ 5) ∧
      (∃ a0, findAttendance s sid eid = some a0) ∧ findFeedback s sid eid = none ∧
      f = ⟨sid, eid, r, c, t⟩ ∧
      s' = { s with feedbacks := s.feedbacks ++ [⟨sid, eid, r, c, t⟩] } := by
  unfold submitFeedback at h
  cases rat with
  | none => exact absurd h (by simp)
  | some r =>
    by_cases hz : r = 0
    · simp [hz] at h
    · by_cases hrange : 1 ≤ r ∧ r ≤ 5
      · cases ha : findAttendance s sid eid with
        | none => simp [hz, hrange, ha] at h
        | some a0 =>
          cases hf : findFeedback s sid eid with
          | some f0 => simp [hz, hrange, ha, hf] at h
          | none =>
            simp [hz, hrange.1, hrange.2, ha, hf] at h
            obtain ⟨h1, h2⟩ := h
            subst h1; subst h2
            exact ⟨r, rfl, hz, hrange, ⟨a0, rfl⟩, rfl, rfl, rfl⟩
      · simp [hz, hrange] at h

/-! ## Sorting lemmas -/

theorem perm_insertDescBy {α : Type} (key : α → Nat) (x : α) (l : List α) :
    (insertDescBy key x l).Perm (x :: l) := by
  induction l with
  | nil => exact List.Perm.refl _
  | cons y l ih =>
    by_cases h : key y < key x
    · rw [insertDescBy, if_pos h]
    · rw [insertDescBy, if_neg h]
      exact (ih.cons y).trans (List.Perm.swap x y l)

theorem perm_sortDescBy {α : Type} (key : α → Nat) (l : List α) :
    (sortDescBy key l).Perm l := by
  induction l with
  | nil => exact List.Perm.refl _
  | cons x l ih => exact (perm_insertDescBy key x (sortDescBy key l)).trans (ih.cons x)

theorem sorted_insertDescBy {α : Type} (key : α → Nat) (x : α) {l : List α}
    (h : SortedDescOn key l) : SortedDescOn key (insertDescBy key x l) := by
  induction l with
  | nil =>
    simp [insertDescBy, SortedDescOn]
  | cons y l ih =>
    rw [SortedDescOn, List.pairwise_cons] at h
    obtain ⟨hy, hl⟩ := h
    by_cases hk : key y < key x
    · rw [insertDescBy, if_pos hk]
      rw [SortedDescOn, List.pairwise_cons]
      refine ⟨?_, List.pairwise_cons.mpr ⟨hy, hl⟩⟩
      intro z hz
      rcases List.mem_cons.mp hz with rfl | hz
      · omega
      · have := hy z hz; omega
    · rw [insertDescBy, if_neg hk]
      rw [SortedDescOn, List.pairwise_cons]
      refine ⟨?_, ih hl⟩
      intro z hz
      have hz' := (perm_insertDescBy key x l).mem_iff.mp hz
      rcases List.mem_cons.mp hz' with rfl | hz'
      · omega
      · exact hy z hz'

theorem sorted_sortDescBy {α : Type} (key : α → Nat) (l : List α) :
    SortedDescOn key (sortDescBy key l) := by
  induction l with
  | nil => simp [sortDescBy, SortedDescOn]
  | cons x l ih => exact sorted_insertDescBy key x ih

theorem sortedDescOn_take {α : Type} {key : α → Nat} {l : List α} (n : Nat)
    (h : SortedDescOn key l) : SortedDescOn key (l.take n) :=
  List.Pairwise.sublist (List.take_sublist n l) h

/-! ## Properties of the lookups -/

theorem findEvent_some {s : Store} {eid : Nat} {e : Event}
    (h : findEvent s eid = some e) : e ∈ s.events ∧ e.id = eid := by
  unfold findEvent at h
  have h1 := List.mem_of_find?_eq_some h
  have h2 := List.find?_some h
  simp at h2
  exact ⟨h1, h2⟩

theorem findStudent_some {s : Store} {sid : Nat} {st : Student}
    (h : findStudent s sid = some st) : st ∈ s.students ∧ st.id = sid := by
  unfold findStudent at h
  have h1 := List.mem_of_find?_eq_some h
  have h2 := List.find?_some h
  simp at h2
  exact ⟨h1, h2⟩

theorem findRegistration_some {s : Store} {sid eid : Nat} {r : Registration}
    (h : findRegistration s sid eid = some r) :
    r ∈ s.registrations ∧ r.studentId = sid ∧ r.eventId = eid := by
  unfold findRegistration at h
  have h1 := List.mem_of_find?_eq_some h
  have h2 := List.find?_some h
  simp at h2
  exact ⟨h1, h2⟩

theorem findAttendance_some {s : Store} {sid eid : Nat} {a : Attendance}
    (h : findAttendance s sid eid = some a) :
    a ∈ s.attendances ∧ a.studentId = sid ∧ a.eventId = eid := by
  unfold findAttendance at h
  have h1 := List.mem_of_find?_eq_some h
  have h2 := List.find?_some h
  simp at h2
  exact ⟨h1, h2⟩

theorem findFeedback_some {s : Store} {sid eid : Nat} {f : Feedback}
    (h : findFeedback s sid eid = some f) :
    f ∈ s.feedbacks ∧ f.studentId = sid ∧ f.eventId = eid := by
  unfold findFeedback at h
  have h1 := List.mem_of_find?_eq_some h
  have h2 := List.find?_some h
  simp at h2
  exact ⟨h1, h2⟩

/-! ## Counts after appending one row -/

theorem regCount_addReg (s : Store) (sid0 eid0 eid : Nat) :
    regCount { s with registrations := s.registrations ++ [⟨sid0, eid0⟩] } eid =
      regCount s eid + (if eid0 = eid then 1 else 0) := by
  by_cases h : eid0 = eid <;>
    simp [regCount, List.filter_append, h]

theorem pairRegCount_addReg (s : Store) (sid0 eid0 sid eid : Nat) :
    pairRegCount { s with registrations := s.registrations ++ [⟨sid0, eid0⟩] } sid eid =
      pairRegCount s sid eid + (if sid0 = sid ∧ eid0 = eid then 1 else 0) := by
  by_cases h1 : sid0 = sid <;> by_cases h2 : eid0 = eid <;>
    simp [pairRegCount, List.filter_append, h1, h2]

theorem pairAttCount_addAtt (s : Store) (sid0 eid0 : Nat) (m : String) (sid eid : Nat) :
    pairAttCount { s with attendances := s.attendances ++ [⟨sid0, eid0, m⟩] } sid eid =
      pairAttCount s sid eid + (if sid0 = sid ∧ eid0 = eid then 1 else 0) := by
  by_cases h1 : sid0 = sid <;> by_cases h2 : eid0 = eid <;>
    simp [pairAttCount, List.filter_append, h1, h2]

theorem pairFbCount_addFb (s : Store) (sid0 eid0 : Nat) (r : Int) (c : String)
    (t : Nat) (sid eid : Nat) :
    pairFbCount { s with feedbacks := s.feedbacks ++ [⟨sid0, eid0, r, c, t⟩] } sid eid =
      pairFbCount s sid eid + (if sid0 = sid ∧ eid0 = eid then 1 else 0) := by
  by_cases h1 : sid0 = sid <;> by_cases h2 : eid0 = eid <;>
    simp [pairFbCount, List.filter_append, h1, h2]

/-! ## Invariant preservation, one lemma per API write -/

theorem storeInv_empty : StoreInv emptyStore := by
  constructor <;>
    simp [emptyStore, regCount, pairRegCount, pairAttCount, pairFbCount]

theorem storeInv_createCollege {s s' : Store} {c : College} {name : String}
    (hInv : StoreInv s) (hop : createCollege s name = .ok (s', c)) : StoreInv s' := by
  obtain ⟨hn, hc, hs'⟩ := createCollege_ok hop
  subst hs'
  exact {
    event_id_lt := fun e he => Nat.lt_succ_of_lt (hInv.event_id_lt e he)
    event_ids_nodup := hInv.event_ids_nodup
    reg_event_exists := hInv.reg_event_exists
    capacity_bound := hInv.capacity_bound
    reg_unique := hInv.reg_unique
    att_unique := hInv.att_unique
    fb_unique := hInv.fb_unique
    att_has_reg := hInv.att_has_reg
    fb_has_att := hInv.fb_has_att }

theorem storeInv_createStudent {s s' : Store} {st : Student} {cid : Nat}
    {name email : String} (hInv : StoreInv s)
    (hop : createStudent s cid name email = .ok (s', st)) : StoreInv s' := by
  obtain ⟨-, -, hst, hs'⟩ := createStudent_ok hop
  subst hs'
  exact {
    event_id_lt := fun e he => Nat.lt_succ_of_lt (hInv.event_id_lt e he)
    event_ids_nodup := hInv.event_ids_nodup
    reg_event_exists := hInv.reg_event_exists
    capacity_bound := hInv.capacity_bound
    reg_unique := hInv.reg_unique
    att_unique := hInv.att_unique
    fb_unique := hInv.fb_unique
    att_has_reg := hInv.att_has_reg
    fb_has_att := hInv.fb_has_att }

theorem regCount_fresh_eq_zero {s : Store} (hInv : StoreInv s) :
    regCount s s.nextId = 0 := by
  have hnone : ∀ r ∈ s.registrations, ¬ (r.eventId == s.nextId) = true := by
    intro r hr
    obtain ⟨e, he, heq⟩ := hInv.reg_event_exists r hr
    have := hInv.event_id_lt e he
    simp
    omega
  rw [regCount, List.filter_eq_nil_iff.mpr hnone]
  rfl

theorem storeInv_createEvent {s : Store} (cid : Nat) (title d ty : String)
    (cap : Int) (hInv : StoreInv s) :
    StoreInv (createEvent s cid title d ty cap).1 := by
  refine {
    event_id_lt := ?_
    event_ids_nodup := ?_
    reg_event_exists := ?_
    capacity_bound := ?_
    reg_unique := hInv.reg_unique
    att_unique := hInv.att_unique
    fb_unique := hInv.fb_unique
    att_has_reg := hInv.att_has_reg
    fb_has_att := hInv.fb_has_att }
  · intro e he
    simp [createEvent] at he ⊢
    rcases he with he | rfl
    · exact Nat.lt_succ_of_lt (hInv.event_id_lt e he)
    · exact Nat.lt_succ_self _
  · show ((s.events ++ [(⟨s.nextId, cid, title, d, ty, cap⟩ : Event)]).map Event.id).Nodup
    rw [List.map_append]
    rw [List.nodup_append]
    refine ⟨hInv.event_ids_nodup, List.nodup_singleton _, ?_⟩
    intro x hx
    simp at hx ⊢
    obtain ⟨e, he, heid⟩ := hx
    have := hInv.event_id_lt e he
    omega
  · intro r hr
    obtain ⟨e, he, heq⟩ := hInv.reg_event_exists r hr
    show ∃ x ∈ s.events ++ [(⟨s.nextId, cid, title, d, ty, cap⟩ : Event)], x.id = r.eventId
    exact ⟨e, List.mem_append_left _ he, heq⟩
  · intro e he hcap0
    have hregs : regCount (createEvent s cid title d ty cap).1 e.id = regCount s e.id := rfl
    rw [hregs]
    simp [createEvent] at he
    rcases he with he | rfl
    · exact hInv.capacity_bound e he hcap0
    · show ((regCount s s.nextId : Int) ≤ cap)
      rw [regCount_fresh_eq_zero hInv]
      exact_mod_cast hcap0

theorem storeInv_register {s s' : Store} {rg : Registration} {eid sid : Nat}
    (hInv : StoreInv s) (hop : register s eid sid = .ok (s', rg)) : StoreInv s' := by
  obtain ⟨e, he, ⟨st, hs⟩, hr, hcap, hrg, hs'⟩ := register_ok hop
  obtain ⟨heMem, heId⟩ := findEvent_some he
  subst hs'
  refine {
    event_id_lt := hInv.event_id_lt
    event_ids_nodup := hInv.event_ids_nodup
    reg_event_exists := ?_
    capacity_bound := ?_
    reg_unique := ?_
    att_unique := hInv.att_unique
    fb_unique := hInv.fb_unique
    att_has_reg := ?_
    fb_has_att := hInv.fb_has_att }
  · intro r hrm
    rcases List.mem_append.mp hrm with hrm | hrm
    · exact hInv.reg_event_exists r hrm
    · simp at hrm
      subst hrm
      exact ⟨e, heMem, heId⟩
  · intro ev hev hcap0
    rw [regCount_addReg]
    by_cases hcase : eid = ev.id
    · rw [if_pos hcase]
      have hev_eq : ev = e :=
        List.inj_on_of_nodup_map hInv.event_ids_nodup hev heMem (by omega)
      have hcapEq : ev.capacity = e.capacity := by rw [hev_eq]
      have hcnt : regCount s eid = regCount s ev.id := by rw [hcase]
      rw [hcapEq]
      omega
    · rw [if_neg hcase]
      simpa using hInv.capacity_bound ev hev hcap0
  · intro sid' eid'
    rw [pairRegCount_addReg]
    by_cases hcase : sid = sid' ∧ eid = eid'
    · obtain ⟨rfl, rfl⟩ := hcase
      have hzero : pairRegCount s sid eid = 0 := filter_len_zero_of_find_none hr
      simp [hzero]
    · rw [if_neg hcase]
      simpa using hInv.reg_unique sid' eid'
  · intro a ha
    obtain ⟨r, hrm, hr1, hr2⟩ := hInv.att_has_reg a ha
    exact ⟨r, List.mem_append_left _ hrm, hr1, hr2⟩

theorem storeInv_markAttendance {s s' : Store} {a : Attendance} {eid sid : Nat}
    {m : String} (hInv : StoreInv s)
    (hop : markAttendance s eid sid m = .ok (s', a)) : StoreInv s' := by
  obtain ⟨r0, hr, ha, haEq, hs'⟩ := markAttendance_ok hop
  obtain ⟨hr0Mem, hr0Sid, hr0Eid⟩ := findRegistration_some hr
  subst hs'
  refine {
    event_id_lt := hInv.event_id_lt
    event_ids_nodup := hInv.event_ids_nodup
    reg_event_exists := hInv.reg_event_exists
    capacity_bound := hInv.capacity_bound
    reg_unique := hInv.reg_unique
    att_unique := ?_
    fb_unique := hInv.fb_unique
    att_has_reg := ?_
    fb_has_att := ?_ }
  · intro sid' eid'
    rw [pairAttCount_addAtt]
    by_cases hcase : sid = sid' ∧ eid = eid'
    · obtain ⟨rfl, rfl⟩ := hcase
      have hzero : pairAttCount s sid eid = 0 := filter_len_zero_of_find_none ha
      simp [hzero]
    · rw [if_neg hcase]
      simpa using hInv.att_unique sid' eid'
  · intro a' ha'
    rcases List.mem_append.mp ha' with ha' | ha'
    · exact hInv.att_has_reg a' ha'
    · simp at ha'
      subst ha'
      exact ⟨r0, hr0Mem, hr0Sid, hr0Eid⟩
  · intro f hf
    obtain ⟨a', haMem, h1, h2⟩ := hInv.fb_has_att f hf
    exact ⟨a', List.mem_append_left _ haMem, h1, h2⟩

theorem storeInv_submitFeedback {s s' : Store} {f : Feedback} {eid sid : Nat}
    {rat : Option Int} {c : String} {t : Nat} (hInv : StoreInv s)
    (hop : submitFeedback s eid sid rat c t = .ok (s', f)) : StoreInv s' := by
  obtain ⟨r, -, -, -, ⟨a0, ha⟩, hfnone, hfEq, hs'⟩ := submitFeedback_ok hop
  obtain ⟨ha0Mem, ha0Sid, ha0Eid⟩ := findAttendance_some ha
  subst hs'
  refine {
    event_id_lt := hInv.event_id_lt
    event_ids_nodup := hInv.event_ids_nodup
    reg_event_exists := hInv.reg_event_exists
    capacity_bound := hInv.capacity_bound
    reg_unique := hInv.reg_unique
    att_unique := hInv.att_unique
    fb_unique := ?_
    att_has_reg := hInv.att_has_reg
    fb_has_att := ?_ }
  · intro sid' eid'
    rw [pairFbCount_addFb]
    by_cases hcase : sid = sid' ∧ eid = eid'
    · obtain ⟨rfl, rfl⟩ := hcase
      have hzero : pairFbCount s sid eid = 0 := filter_len_zero_of_find_none hfnone
      simp [hzero]
    · rw [if_neg hcase]
      simpa using hInv.fb_unique sid' eid'
  · intro f' hf'
    rcases List.mem_append.mp hf' with hf' | hf'
    · exact hInv.fb_has_att f' hf'
    · simp at hf'
      subst hf'
      exact ⟨a0, ha0Mem, ha0Sid, ha0Eid⟩

theorem find?_append_of_none {α : Type} {p : α → Bool} {l₁ l₂ : List α}
    (h : l₁.find? p = none) : (l₁ ++ l₂).find? p = l₂.find? p := by
  rw [List.find?_append, h, Option.none_or]

/-- After a successful registration, the pair lookup finds the new row. -/
theorem findRegistration_addReg_self (s : Store) (sid eid : Nat)
    (h : findRegistration s sid eid = none) :
    findRegistration { s with registrations := s.registrations ++ [⟨sid, eid⟩] }
      sid eid = some ⟨sid, eid⟩ := by
  unfold findRegistration at h ⊢
  rw [find?_append_of_none h]
  simp [List.find?]

/-- Every API-reachable store satisfies the structural invariants. -/
theorem reachable_storeInv {s : Store} (h : Reachable s) : StoreInv s := by
  induction h with
  | empty => exact storeInv_empty
  | step_createCollege name h hop ih => exact storeInv_createCollege ih hop
  | step_createStudent cid name email h hop ih => exact storeInv_createStudent ih hop
  | step_createEvent cid title description eventType capacity h ih =>
      exact storeInv_createEvent cid title description eventType capacity ih
  | step_register eid sid h hop ih => exact storeInv_register ih hop
  | step_markAttendance eid sid m h hop ih => exact storeInv_markAttendance ih hop
  | step_submitFeedback eid sid r c t h hop ih => exact storeInv_submitFeedback ih hop

/-! ## The claims -/

/-- C1: `register` checks, in order: event existence (NotFoundError), student
existence (NotFoundError), duplicate registration (ConflictError, so a second
call on a pair leaves exactly one Registration), capacity (CapacityError);
only then does it create and return exactly one new Registration. -/
theorem register_check_order (s : Store) (eid sid : Nat) :
    (findEvent s eid = none →
      register s eid sid = .error (.notFoundError "Event not found")) ∧
    (findEvent s eid ≠ none → findStudent s sid = none →
      register s eid sid = .error (.notFoundError "Student not found")) ∧
    (findEvent s eid ≠ none → findStudent s sid ≠ none →
      findRegistration s sid eid ≠ none →
      register s eid sid =
        .error (.conflictError "Student already registered for this event")) ∧
    (∀ e, findEvent s eid = some e → findStudent s sid ≠ none →
      findRegistration s sid eid = none → e.capacity ≤ (regCount s eid : Int) →
      register s eid sid = .error (.capacityError "Event is at full capacity")) ∧
    (∀ e, findEvent s eid = some e → findStudent s sid ≠ none →
      findRegistration s sid eid = none → (regCount s eid : Int) < e.capacity →
      register s eid sid =
        .ok ({ s with registrations := s.registrations ++ [⟨sid, eid⟩] },
          (⟨sid, eid⟩ : Registration))) ∧
    (∀ s' rg, register s eid sid = .ok (s', rg) →
      pairRegCount s sid eid = 0 ∧ pairRegCount s' sid eid = 1 ∧
      register s' eid sid =
        .error (.conflictError "Student already registered for this event")) := by
  refine ⟨?_, ?_, ?_, ?_, ?_, ?_⟩
  · intro he
    simp [register, he]
  · intro he hs
    cases hev : findEvent s eid with
    | none => exact absurd hev he
    | some e => simp [register, hev, hs]
  · intro he hs hr
    cases hev : findEvent s eid with
    | none => exact absurd hev he
    | some e =>
      cases hst : findStudent s sid with
      | none => exact absurd hst hs
      | some st =>
        cases hrg : findRegistration s sid eid with
        | none => exact absurd hrg hr
        | some r0 => simp [register, hev, hst, hrg]
  · intro e hev hs hr hcap
    cases hst : findStudent s sid with
    | none => exact absurd hst hs
    | some st => simp [register, hev, hst, hr, hcap]
  · intro e hev hs hr hcap
    cases hst : findStudent s sid with
    | none => exact absurd hst hs
    | some st => simp [register, hev, hst, hr, not_le.mpr hcap]
  · intro s' rg h
    obtain ⟨e, hev, ⟨st, hst⟩, hr, hcap, hrgEq, hs'⟩ := register_ok h
    have hz : pairRegCount s sid eid = 0 := filter_len_zero_of_find_none hr
    refine ⟨hz, ?_, ?_⟩
    · subst hs'
      rw [pairRegCount_addReg, hz]
      simp
    · subst hs'
      have hev' : findEvent
          { s with registrations := s.registrations ++ [⟨sid, eid⟩] } eid = some e := hev
      have hst' : findStudent
          { s with registrations := s.registrations ++ [⟨sid, eid⟩] } sid = some st := hst
      have hr' := findRegistration_addReg_self s sid eid hr
      simp [register, hev', hst', hr']

/-- C1 witness: on a store with one student and one event of capacity 3,
registration succeeds and a second attempt returns the ConflictError. -/
theorem register_check_order_witness :
    pairRegCount regReadyStore 1 2 = 0 ∧
    register regReadyStore 2 1 =
      .ok ({ regReadyStore with registrations := [⟨1, 2⟩] },
        (⟨1, 2⟩ : Registration)) := by
  have h := (register_check_order regReadyStore 2 1).2.2.2.2.1
    ⟨2, 0, "E", "", "Workshop", 3⟩ rfl (by decide) rfl (by decide)
  have h0 : pairRegCount regReadyStore 1 2 = 0 := by decide
  exact ⟨h0, by simpa using h⟩

/-- C2 counterexample: `createEvent` accepts a negative capacity, and the
resulting reachable store holds an event whose registration count (zero)
already exceeds its capacity, so the unrestricted invariant fails. -/
theorem capacity_claim_cex :
    Reachable negCapStore ∧
    (⟨1, 0, "E", "", "W", -1⟩ : Event) ∈ negCapStore.events ∧
    regCount negCapStore 1 = 0 ∧
    ¬ ((regCount negCapStore 1 : Int) ≤ (⟨1, 0, "E", "", "W", -1⟩ : Event).capacity) := by
  refine ⟨?_, by decide, rfl, by decide⟩
  have h1 : Reachable oneCollegeStore :=
    Reachable.step_createCollege "U1" Reachable.empty rfl
  have h2 := Reachable.step_createEvent 0 "E" "" "W" (-1) h1
  exact h2

/-- C2 (amended): in every reachable store, every event with a nonnegative
capacity — in particular any positive-integer capacity as the data model
prescribes — holds at most `capacity` registrations; and a register call for
an event holding exactly `capacity` registrations, by an existing student
not yet registered, fails with CapacityError, so exactly `capacity`
registrations persist. -/
theorem capacity_invariant {s : Store} (h : Reachable s) :
    (∀ e ∈ s.events, 0 ≤ e.capacity → (regCount s e.id : Int) ≤ e.capacity) ∧
    (∀ e sid, findEvent s e.id = some e → findStudent s sid ≠ none →
      findRegistration s sid e.id = none → (regCount s e.id : Int) = e.capacity →
      register s e.id sid = .error (.capacityError "Event is at full capacity")) := by
  refine ⟨(reachable_storeInv h).capacity_bound, ?_⟩
  intro e sid hev hs hr hcap
  cases hst : findStudent s sid with
  | none => exact absurd hst hs
  | some st =>
    have hle : e.capacity ≤ (regCount s e.id : Int) := le_of_eq hcap.symm
    simp [register, hev, hst, hr, hle]

/-- C2 witness: a reachable store whose event of capacity 1 holds one
registration; registering a second, fresh student fails with CapacityError. -/
theorem capacity_invariant_witness :
    Reachable capFullStore ∧ regCount capFullStore 3 = 1 ∧
    register capFullStore 3 2 = .error (.capacityError "Event is at full capacity") := by
  have h1 : Reachable oneCollegeStore :=
    Reachable.step_createCollege "U1" Reachable.empty rfl
  have h2 : Reachable (⟨2, [⟨0, "U1"⟩], [⟨1, 0, "A", "a@u1.edu"⟩], [], [], [], []⟩ : Store) :=
    Reachable.step_createStudent 0 "A" "a@u1.edu" h1 rfl
  have h3 : Reachable twoStudentStore :=
    Reachable.step_createStudent 0 "B" "b@u1.edu" h2 rfl
  have h4 : Reachable capOneStore := Reachable.step_createEvent 0 "E" "" "W" 1 h3
  have h5 : Reachable capFullStore := Reachable.step_register 3 1 h4 rfl
  refine ⟨h5, rfl, ?_⟩
  exact (capacity_invariant h5).2 ⟨3, 0, "E", "", "W", 1⟩ 2 rfl (by decide) rfl (by decide)

/-- After a successful attendance, the pair lookup finds the new row. -/
theorem findAttendance_addAtt_self (s : Store) (sid eid : Nat) (m : String)
    (h : findAttendance s sid eid = none) :
    findAttendance { s with attendances := s.attendances ++ [⟨sid, eid, m⟩] }
      sid eid = some ⟨sid, eid, m⟩ := by
  unfold findAttendance at h ⊢
  rw [find?_append_of_none h]
  simp [List.find?]

/-- After a successful feedback, the pair lookup finds the new row. -/
theorem findFeedback_addFb_self (s : Store) (sid eid : Nat) (r : Int) (c : String)
    (t : Nat) (h : findFeedback s sid eid = none) :
    findFeedback { s with feedbacks := s.feedbacks ++ [⟨sid, eid, r, c, t⟩] }
      sid eid = some ⟨sid, eid, r, c, t⟩ := by
  unfold findFeedback at h ⊢
  rw [find?_append_of_none h]
  simp [List.find?]

/-- C3 counterexample: with no Attendance on record for the pair,
`submitFeedback` with rating 6 fails with ValidationError, not
ForbiddenError — rating validation runs before the attendance check, so the
claim's unconditional ForbiddenError is false. -/
theorem workflow_forward_cex :
    findAttendance emptyStore 2 1 = none ∧
    submitFeedback emptyStore 1 2 (some 6) "" 0 =
      .error (.validationError "Rating must be between 1 and 5") ∧
    errKind (submitFeedback emptyStore 1 2 (some 6) "" 0) ≠ some .forbidden := by
  exact ⟨rfl, rfl, by decide⟩

/-- C3 (amended): the workflow is strictly forward-only: `markAttendance`
without a Registration fails with ForbiddenError; `submitFeedback` with a
valid rating and no Attendance fails with ForbiddenError (an invalid rating
fails validation first); repeating a completed transition (with a valid
rating, for feedback) fails with ConflictError; and every reachable store
holds at most one Attendance and one Feedback per pair. -/
theorem workflow_forward_only (s : Store) :
    (∀ sid eid m, findRegistration s sid eid = none →
      markAttendance s eid sid m =
        .error (.forbiddenError "Student must be registered to mark attendance")) ∧
    (∀ sid eid (r : Int) c t, 1 ≤ r → r ≤ 5 → findAttendance s sid eid = none →
      submitFeedback s eid sid (some r) c t =
        .error (.forbiddenError "Student must have attended to submit feedback")) ∧
    (∀ sid eid m s' a, markAttendance s eid sid m = .ok (s', a) →
      ∀ m', markAttendance s' eid sid m' =
        .error (.conflictError "Attendance already marked for this event")) ∧
    (∀ sid eid (r : Int) c t s' f, submitFeedback s eid sid (some r) c t = .ok (s', f) →
      ∀ (r' : Int) c' t', 1 ≤ r' → r' ≤ 5 →
        submitFeedback s' eid sid (some r') c' t' =
          .error (.conflictError "Feedback already submitted for this event")) ∧
    (Reachable s → ∀ sid eid, pairAttCount s sid eid ≤ 1 ∧ pairFbCount s sid eid ≤ 1) := by
  refine ⟨?_, ?_, ?_, ?_, ?_⟩
  · intro sid eid m hr
    simp [markAttendance, hr]
  · intro sid eid r c t h1 h5 ha
    have hz : ¬ (r = 0) := by omega
    simp [submitFeedback, hz, h1, h5, ha]
  · intro sid eid m s' a h m'
    obtain ⟨r0, hr, ha, haEq, hs'⟩ := markAttendance_ok h
    subst hs'
    have hr' : findRegistration
        { s with attendances := s.attendances ++ [⟨sid, eid, m⟩] } sid eid = some r0 := hr
    have ha' := findAttendance_addAtt_self s sid eid m ha
    simp [markAttendance, hr', ha']
  · intro sid eid r c t s' f h r' c' t' h1 h5
    obtain ⟨r0, hrEq, hz0, hrange, ⟨a0, ha⟩, hfnone, hfEq, hs'⟩ := submitFeedback_ok h
    have hr0 : r0 = r := (Option.some.inj hrEq).symm
    subst hr0
    subst hs'
    have hz' : ¬ (r' = 0) := by omega
    have ha' : findAttendance
        { s with feedbacks := s.feedbacks ++ [⟨sid, eid, r0, c, t⟩] } sid eid = some a0 := ha
    have hf' := findFeedback_addFb_self s sid eid r0 c t hfnone
    simp [submitFeedback, hz', h1, h5, ha', hf']
  · intro hreach sid eid
    exact ⟨(reachable_storeInv hreach).att_unique sid eid,
      (reachable_storeInv hreach).fb_unique sid eid⟩

/-- C3 witness: skipping a stage is Forbidden on a concrete store — student 2
is not registered for event 99, and student 2 never attended event 3. -/
theorem workflow_forward_only_witness :
    markAttendance scenarioStore 99 2 "manual" =
      .error (.forbiddenError "Student must be registered to mark attendance") ∧
    submitFeedback scenarioStore 3 2 (some 5) "" 0 =
      .error (.forbiddenError "Student must have attended to submit feedback") := by
  exact ⟨(workflow_forward_only scenarioStore).1 2 99 "manual" (by decide),
    (workflow_forward_only scenarioStore).2.1 2 3 5 "" 0 (by decide) (by decide) (by decide)⟩

/-- C4 counterexample: on the empty store neither student 2 nor event 1
exists, yet `markAttendance` and `submitFeedback` return ForbiddenError, not
the NotFoundError the claim demands — these handlers never look entities up. -/
theorem notfound_claim_cex :
    findEvent emptyStore 1 = none ∧ findStudent emptyStore 2 = none ∧
    markAttendance emptyStore 1 2 "manual" =
      .error (.forbiddenError "Student must be registered to mark attendance") ∧
    errKind (markAttendance emptyStore 1 2 "manual") ≠ some .notFound ∧
    submitFeedback emptyStore 1 2 (some 3) "" 0 =
      .error (.forbiddenError "Student must have attended to submit feedback") ∧
    errKind (submitFeedback emptyStore 1 2 (some 3) "" 0) ≠ some .notFound := by
  exact ⟨rfl, rfl, rfl, by decide, rfl, by decide⟩

/-- C4 (amended): only `register` checks entity existence, failing with
NotFoundError for an unknown event or student; `markAttendance` and
`submitFeedback` can never return NotFoundError — with unknown ids their
pair checks fail first, giving ForbiddenError (after rating validation, for
feedback). -/
theorem notfound_scope (s : Store) :
    (∀ eid sid, findEvent s eid = none →
      register s eid sid = .error (.notFoundError "Event not found")) ∧
    (∀ eid sid, findEvent s eid ≠ none → findStudent s sid = none →
      register s eid sid = .error (.notFoundError "Student not found")) ∧
    (∀ eid sid m, errKind (markAttendance s eid sid m) ≠ some .notFound) ∧
    (∀ eid sid rat c t, errKind (submitFeedback s eid sid rat c t) ≠ some .notFound) ∧
    (∀ eid sid m, findRegistration s sid eid = none →
      markAttendance s eid sid m =
        .error (.forbiddenError "Student must be registered to mark attendance")) ∧
    (∀ eid sid (r : Int) c t, 1 ≤ r → r ≤ 5 → findAttendance s sid eid = none →
      submitFeedback s eid sid (some r) c t =
        .error (.forbiddenError "Student must have attended to submit feedback")) := by
  refine ⟨?_, ?_, ?_, ?_, ?_, ?_⟩
  · intro eid sid he
    simp [register, he]
  · intro eid sid he hs
    cases hev : findEvent s eid with
    | none => exact absurd hev he
    | some e => simp [register, hev, hs]
  · intro eid sid m
    unfold markAttendance
    cases hr : findRegistration s sid eid with
    | none => simp [errKind, ApiError.kind]
    | some r0 =>
      cases ha : findAttendance s sid eid with
      | none => simp [errKind]
      | some a0 => simp [errKind, ApiError.kind]
  · intro eid sid rat c t
    unfold submitFeedback
    cases rat with
    | none => simp [errKind, ApiError.kind]
    | some r =>
      by_cases hz : r = 0
      · simp [hz, errKind, ApiError.kind]
      · by_cases hrange : 1 ≤ r ∧ r ≤ 5
        · cases ha : findAttendance s sid eid with
          | none => simp [hz, hrange, errKind, ApiError.kind]
          | some a0 =>
            cases hf : findFeedback s sid eid with
            | none => simp [hz, hrange, errKind]
            | some f0 => simp [hz, hrange, errKind, ApiError.kind]
        · simp [hz, hrange, errKind, ApiError.kind]
  · intro eid sid m hr
    simp [markAttendance, hr]
  · intro eid sid r c t h1 h5 ha
    have hz : ¬ (r = 0) := by omega
    simp [submitFeedback, hz, h1, h5, ha]

/-- C4 witness: `register` does return NotFoundError for a missing event
(empty store) and for a missing student (store with only an event). -/
theorem notfound_scope_witness :
    register emptyStore 1 2 = .error (.notFoundError "Event not found") ∧
    register idleEventStore 1 2 = .error (.notFoundError "Student not found") := by
  exact ⟨(notfound_scope emptyStore).1 1 2 rfl,
    (notfound_scope idleEventStore).2.1 1 2 (by decide) rfl⟩

/-- C5 counterexample: a store with one event and no registrations — the
claim demands one row for the event, but the inner join drops it and the
report is empty. -/
theorem event_popularity_zero_cex :
    idleEventStore.events.length = 1 ∧
    regCount idleEventStore 1 = 0 ∧
    eventPopularity idleEventStore none = [] := by
  exact ⟨rfl, rfl, rfl⟩

/-- C5 (amended): `eventPopularity` returns one row per event having at
least one registration (events with zero registrations are dropped by the
inner join), restricted to the college filter when given; each row carries
the event's id, title, type, capacity and registration count; rows are in
descending registration-count order; when nothing matches the result is the
empty list rather than a failure. -/
theorem event_popularity_rows (s : Store) (cid : Option Nat) :
    (eventPopularity s cid).Perm
      (((collegeEvents s cid).filter (fun e => regCount s e.id != 0)).map (popRowOf s)) ∧
    SortedDescOn PopularityRow.registrationCount (eventPopularity s cid) ∧
    (∀ row ∈ eventPopularity s cid, 0 < row.registrationCount ∧
      ∃ e ∈ collegeEvents s cid, regCount s e.id ≠ 0 ∧ row = popRowOf s e) ∧
    (∀ e ∈ collegeEvents s cid, regCount s e.id ≠ 0 →
      popRowOf s e ∈ eventPopularity s cid) := by
  refine ⟨perm_sortDescBy _ _, sorted_sortDescBy _ _, ?_, ?_⟩
  · intro row hrow
    have h2 := (perm_sortDescBy PopularityRow.registrationCount _).mem_iff.mp hrow
    obtain ⟨e, he, rfl⟩ := List.mem_map.mp h2
    obtain ⟨heMem, hne⟩ := List.mem_filter.mp he
    simp only [bne_iff_ne, ne_eq] at hne
    exact ⟨Nat.pos_of_ne_zero hne, e, heMem, hne, rfl⟩
  · intro e he hne
    refine (perm_sortDescBy PopularityRow.registrationCount _).mem_iff.mpr ?_
    exact List.mem_map_of_mem _ (List.mem_filter.mpr ⟨he, by simp [hne]⟩)

/-- C5 witness: in the example scenario the event with two registrations
appears as a row carrying its id, title, type, capacity and count 2. -/
theorem event_popularity_rows_witness :
    (⟨3, "TechFest", "Workshop", 2, 2⟩ : PopularityRow) ∈
      eventPopularity scenarioStore none := by
  have h := (event_popularity_rows scenarioStore none).2.2.2
    ⟨3, 0, "TechFest", "", "Workshop", 2⟩ (by decide) (by decide)
  exact h

theorem roundTo2_zero : roundTo2 0 = 0 := by
  simp [roundTo2]

/-- C6 counterexample: an event with 3 registrations and 1 attendance — the
code reports the percentage rounded to 2 decimals (33.33), which is not the
exact a / r × 100 = 100 / 3 the claim states. -/
theorem event_attendance_rounding_cex :
    regCount thirdAttendedStore 4 = 3 ∧
    attCountEvent thirdAttendedStore 4 = 1 ∧
    (eventAttendance thirdAttendedStore 4).toOption.map
      AttendanceReport.attendancePercentage = some (3333/100 : ℚ) ∧
    (3333/100 : ℚ) ≠ (1 : ℚ) / 3 * 100 := by
  refine ⟨rfl, rfl, ?_, by norm_num⟩
  have h1 : (eventAttendance thirdAttendedStore 4).toOption.map
      AttendanceReport.attendancePercentage =
      some (roundTo2 ((1 : ℚ) / 3 * 100)) := rfl
  rw [h1]
  norm_num [roundTo2, round_eq]

/-- C6 (amended): `eventAttendance` fails with NotFoundError exactly when the
event is absent; otherwise it reports the registration count r, attendance
count a, the percentage a / r × 100 rounded to 2 decimals (0 when r = 0),
the average rating rounded to 2 decimals (None when no feedback exists),
and the feedback count. -/
theorem event_attendance_spec (s : Store) (eid : Nat) :
    (eventAttendance s eid = .error (.notFoundError "Event not found") ↔
      findEvent s eid = none) ∧
    (∀ rep, eventAttendance s eid = .ok rep →
      rep.registrationCount = regCount s eid ∧
      rep.attendanceCount = attCountEvent s eid ∧
      rep.feedbackCount = fbCountEvent s eid ∧
      (regCount s eid = 0 → rep.attendancePercentage = 0) ∧
      (0 < regCount s eid → rep.attendancePercentage =
        roundTo2 ((attCountEvent s eid : ℚ) / (regCount s eid : ℚ) * 100)) ∧
      (eventRatings s eid = [] → rep.averageRating = none) ∧
      (∀ q : ℚ, eventRatings s eid ≠ [] →
        ((eventRatings s eid).map (fun r => (r : ℚ))).sum /
          ((eventRatings s eid).length : ℚ) = q → q ≠ 0 →
        rep.averageRating = some (roundTo2 q))) := by
  cases he : findEvent s eid with
  | none =>
    refine ⟨⟨fun _ => rfl, fun _ => by simp [eventAttendance, he]⟩, ?_⟩
    intro rep h
    rw [eventAttendance] at h
    rw [he] at h
    simp at h
  | some e =>
    constructor
    · constructor
      · intro h
        rw [eventAttendance] at h
        rw [he] at h
        simp at h
      · intro h
        exact absurd h (fun hc => Option.noConfusion hc)
    · intro rep h
      rw [eventAttendance] at h
      rw [he] at h
      simp only [Except.ok.injEq] at h
      subst h
      refine ⟨rfl, rfl, rfl, ?_, ?_, ?_, ?_⟩
      · intro h0
        show roundTo2 (if 0 < regCount s eid then
            (attCountEvent s eid : ℚ) / (regCount s eid : ℚ) * 100 else 0) = 0
        rw [h0]
        simp [roundTo2_zero]
      · intro h0
        show roundTo2 (if 0 < regCount s eid then
            (attCountEvent s eid : ℚ) / (regCount s eid : ℚ) * 100 else 0) =
          roundTo2 ((attCountEvent s eid : ℚ) / (regCount s eid : ℚ) * 100)
        rw [if_pos h0]
      · intro h0
        show (match (if (eventRatings s eid).isEmpty then (none : Option ℚ)
            else some (((eventRatings s eid).map (fun r => (r : ℚ))).sum /
              ((eventRatings s eid).length : ℚ))) with
          | none => none
          | some a => if a = 0 then none else some (roundTo2 a)) = none
        rw [h0]
        rfl
      · intro q hne hq hq0
        have hempty : (eventRatings s eid).isEmpty = false := by
          simpa [List.isEmpty_iff] using hne
        show (match (if (eventRatings s eid).isEmpty then (none : Option ℚ)
            else some (((eventRatings s eid).map (fun r => (r : ℚ))).sum /
              ((eventRatings s eid).length : ℚ))) with
          | none => none
          | some a => if a = 0 then none else some (roundTo2 a)) = some (roundTo2 q)
        rw [hempty]
        simp only [Bool.false_eq_true, if_false]
        rw [hq]
        simp [hq0]

/-- C6 witness: the spec's example — 2 registrations, 1 attendance and one
rating-5 feedback — yields counts 2 and 1, percentage 50, average rating 5
and feedback count 1. -/
theorem event_attendance_spec_witness :
    (eventAttendance scenarioStore 3).toOption.map AttendanceReport.registrationCount
      = some 2 ∧
    (eventAttendance scenarioStore 3).toOption.map AttendanceReport.attendanceCount
      = some 1 ∧
    (eventAttendance scenarioStore 3).toOption.map AttendanceReport.attendancePercentage
      = some (50 : ℚ) ∧
    (eventAttendance scenarioStore 3).toOption.map AttendanceReport.averageRating
      = some (some (5 : ℚ)) ∧
    (eventAttendance scenarioStore 3).toOption.map AttendanceReport.feedbackCount
      = some 1 := by
  have hex : ∃ rep, eventAttendance scenarioStore 3 = .ok rep := by
    rw [eventAttendance]
    rw [show findEvent scenarioStore 3 =
      some ⟨3, 0, "TechFest", "", "Workshop", 2⟩ from rfl]
    exact ⟨_, rfl⟩
  obtain ⟨rep, hok⟩ := hex
  have h := (event_attendance_spec scenarioStore 3).2 rep hok
  have hr : regCount scenarioStore 3 = 2 := rfl
  have ha : attCountEvent scenarioStore 3 = 1 := rfl
  have hf : fbCountEvent scenarioStore 3 = 1 := rfl
  have hratings : eventRatings scenarioStore 3 = [5] := rfl
  rw [hok]
  show some rep.registrationCount = some 2 ∧ some rep.attendanceCount = some 1 ∧
    some rep.attendancePercentage = some (50 : ℚ) ∧
    some rep.averageRating = some (some (5 : ℚ)) ∧ some rep.feedbackCount = some 1
  refine ⟨?_, ?_, ?_, ?_, ?_⟩
  · rw [h.1, hr]
  · rw [h.2.1, ha]
  · rw [h.2.2.2.2.1 (by rw [hr]; omega), hr, ha]
    norm_num [roundTo2, round_eq]
  · rw [h.2.2.2.2.2.2 5 (by rw [hratings]; simp) ?_ (by norm_num)]
    · norm_num [roundTo2, round_eq]
    · rw [hratings]
      norm_num
  · rw [h.2.2.1, hf]

/-- C7 counterexample: a student with 3 registrations and 1 attendance — the
code reports the rate rounded to 2 decimals (33.33), not the exact
attendedCount / registeredCount × 100 = 100 / 3 the claim states. -/
theorem student_participation_rounding_cex :
    (studentRegs threeRegStore 1).length = 3 ∧
    (studentAtts threeRegStore 1).length = 1 ∧
    (studentParticipation threeRegStore 1).toOption.map
      ParticipationReport.attendanceRate = some (3333/100 : ℚ) ∧
    (3333/100 : ℚ) ≠ (1 : ℚ) / 3 * 100 := by
  refine ⟨rfl, rfl, ?_, by norm_num⟩
  have h1 : (studentParticipation threeRegStore 1).toOption.map
      ParticipationReport.attendanceRate =
      some (if ((studentRegs threeRegStore 1).map Registration.eventId).isEmpty then (0 : ℚ)
        else roundTo2 ((((studentAtts threeRegStore 1).map Attendance.eventId).length : ℚ) /
          (((studentRegs threeRegStore 1).map Registration.eventId).length : ℚ) * 100)) := rfl
  have hempty : ((studentRegs threeRegStore 1).map Registration.eventId).isEmpty = false := rfl
  have hlr : ((studentRegs threeRegStore 1).map Registration.eventId).length = 3 := rfl
  have hla : ((studentAtts threeRegStore 1).map Attendance.eventId).length = 1 := rfl
  rw [h1, hempty, hlr, hla]
  simp only [Bool.false_eq_true, if_false]
  norm_num [roundTo2, round_eq]

/-- C7 (amended): `studentParticipation` fails with NotFoundError exactly
when the student is absent; otherwise it returns the registered, attended
and feedback lists (title, rating, comment, submission time) and the rate
attendedCount / registeredCount × 100 rounded to 2 decimals; a student with
zero registrations gets rate 0 and empty lists with no error — the division
never happens. -/
theorem student_participation_spec (s : Store) (sid : Nat) :
    (studentParticipation s sid = .error (.notFoundError "Student not found") ↔
      findStudent s sid = none) ∧
    (∀ rep, studentParticipation s sid = .ok rep →
      rep.registeredEvents = (studentRegs s sid).map Registration.eventId ∧
      rep.attendedEvents = (studentAtts s sid).map Attendance.eventId ∧
      rep.feedbacks = (studentFbs s sid).map (feedbackEntryOf s) ∧
      rep.eventsRegistered = (studentRegs s sid).length ∧
      rep.eventsAttended = (studentAtts s sid).length ∧
      rep.feedbacksGiven = (studentFbs s sid).length ∧
      (studentRegs s sid = [] → rep.attendanceRate = 0) ∧
      (studentRegs s sid ≠ [] → rep.attendanceRate =
        roundTo2 (((studentAtts s sid).length : ℚ) /
          ((studentRegs s sid).length : ℚ) * 100))) ∧
    (Reachable s → ∀ st, findStudent s sid = some st → studentRegs s sid = [] →
      studentParticipation s sid = .ok ⟨st.id, 0, 0, 0, 0, [], [], []⟩) := by
  refine ⟨?_, ?_, ?_⟩
  · cases hst : findStudent s sid with
    | none =>
      refine ⟨fun _ => rfl, fun _ => ?_⟩
      rw [studentParticipation]
      rw [hst]
    | some st =>
      constructor
      · intro h
        rw [studentParticipation] at h
        rw [hst] at h
        simp at h
      · intro h
        exact absurd h (fun hc => Option.noConfusion hc)
  · intro rep h
    cases hst : findStudent s sid with
    | none =>
      rw [studentParticipation] at h
      rw [hst] at h
      simp at h
    | some st =>
      rw [studentParticipation] at h
      rw [hst] at h
      simp only [Except.ok.injEq] at h
      subst h
      refine ⟨rfl, rfl, rfl, List.length_map _ _, List.length_map _ _,
        List.length_map _ _, ?_, ?_⟩
      · intro h0
        show (if ((studentRegs s sid).map Registration.eventId).isEmpty then (0 : ℚ)
          else roundTo2 ((((studentAtts s sid).map Attendance.eventId).length : ℚ) /
            (((studentRegs s sid).map Registration.eventId).length : ℚ) * 100)) = 0
        rw [h0]
        rfl
      · intro h0
        have hne : ((studentRegs s sid).map Registration.eventId).isEmpty = false := by
          cases hl : studentRegs s sid with
          | nil => exact absurd hl h0
          | cons a l => rfl
        show (if ((studentRegs s sid).map Registration.eventId).isEmpty then (0 : ℚ)
          else roundTo2 ((((studentAtts s sid).map Attendance.eventId).length : ℚ) /
            (((studentRegs s sid).map Registration.eventId).length : ℚ) * 100)) =
          roundTo2 (((studentAtts s sid).length : ℚ) /
            ((studentRegs s sid).length : ℚ) * 100)
        rw [hne]
        simp only [Bool.false_eq_true, if_false, List.length_map]
  · intro hreach st hst hregs
    have hInv := reachable_storeInv hreach
    have hatts : studentAtts s sid = [] := by
      rw [List.eq_nil_iff_forall_not_mem]
      intro a ha
      obtain ⟨haMem, haSid⟩ := List.mem_filter.mp ha
      obtain ⟨r, hrMem, hrSid, -⟩ := hInv.att_has_reg a haMem
      have hrs : r ∈ studentRegs s sid := by
        refine List.mem_filter.mpr ⟨hrMem, ?_⟩
        simp at haSid ⊢
        omega
      rw [hregs] at hrs
      exact absurd hrs (List.not_mem_nil r)
    have hfbs : studentFbs s sid = [] := by
      rw [List.eq_nil_iff_forall_not_mem]
      intro f hf
      obtain ⟨hfMem, hfSid⟩ := List.mem_filter.mp hf
      obtain ⟨a, haMem, haSid, -⟩ := hInv.fb_has_att f hfMem
      have has : a ∈ studentAtts s sid := by
        refine List.mem_filter.mpr ⟨haMem, ?_⟩
        simp at hfSid ⊢
        omega
      rw [hatts] at has
      exact absurd has (List.not_mem_nil a)
    rw [studentParticipation]
    rw [hst]
    rw [hregs, hatts, hfbs]
    rfl

/-- C7 witness: a student who never registered gets rate 0 and empty lists,
with no error. -/
theorem student_participation_spec_witness :
    studentParticipation freshStudentStore 1 = .ok ⟨1, 0, 0, 0, 0, [], [], []⟩ := by
  have h1 : Reachable (⟨1, [⟨0, "U"⟩], [], [], [], [], []⟩ : Store) :=
    Reachable.step_createCollege "U" Reachable.empty rfl
  have h2 : Reachable freshStudentStore :=
    Reachable.step_createStudent 0 "A" "a@u.edu" h1 rfl
  exact (student_participation_spec freshStudentStore 1).2.2 h2
    ⟨1, 0, "A", "a@u.edu"⟩ rfl rfl

/-- C8: `submitFeedback` validates the rating before anything else: an absent
rating, rating 0 (falsy in Python) and any rating outside [1,5] — rating 6 in
particular — fail with ValidationError regardless of attendance state; with
an Attendance on record and no prior Feedback, ratings 1 and 5 succeed and
create exactly one Feedback. -/
theorem feedback_rating_validation (s : Store) (eid sid : Nat) :
    (∀ c t, submitFeedback s eid sid none c t =
      .error (.validationError "student_id and rating are required")) ∧
    (∀ (r : Int) c t, ¬ (1 ≤ r ∧ r ≤ 5) →
      errKind (submitFeedback s eid sid (some r) c t) = some .validation) ∧
    (∀ c t, submitFeedback s eid sid (some 0) c t =
      .error (.validationError "student_id and rating are required")) ∧
    (∀ c t, submitFeedback s eid sid (some 6) c t =
      .error (.validationError "Rating must be between 1 and 5")) ∧
    (∀ (r : Int) c t a0, (r = 1 ∨ r = 5) → findAttendance s sid eid = some a0 →
      findFeedback s sid eid = none →
      submitFeedback s eid sid (some r) c t =
        .ok ({ s with feedbacks := s.feedbacks ++ [⟨sid, eid, r, c, t⟩] },
          (⟨sid, eid, r, c, t⟩ : Feedback))) := by
  refine ⟨?_, ?_, ?_, ?_, ?_⟩
  · intro c t
    rfl
  · intro r c t hrange
    by_cases hz : r = 0
    · simp [submitFeedback, hz, errKind, ApiError.kind]
    · simp [submitFeedback, hz, hrange, errKind, ApiError.kind]
  · intro c t
    rfl
  · intro c t
    simp [submitFeedback]
  · intro r c t a0 hr ha hf
    have hz : ¬ (r = 0) := by rcases hr with rfl | rfl <;> omega
    have hrange : 1 ≤ r ∧ r ≤ 5 := by rcases hr with rfl | rfl <;> omega
    simp [submitFeedback, hz, hrange.1, hrange.2, ha, hf]

/-- C8 witness: on a store where student 1 attended event 4 with no prior
feedback, rating 5 succeeds and ratings 0 and 6 fail with ValidationError. -/
theorem feedback_rating_validation_witness :
    submitFeedback thirdAttendedStore 4 1 (some 5) "ok" 7 =
      .ok ({ thirdAttendedStore with feedbacks := [⟨1, 4, 5, "ok", 7⟩] },
        (⟨1, 4, 5, "ok", 7⟩ : Feedback)) ∧
    submitFeedback thirdAttendedStore 4 1 (some 0) "" 0 =
      .error (.validationError "student_id and rating are required") ∧
    submitFeedback thirdAttendedStore 4 1 (some 6) "" 0 =
      .error (.validationError "Rating must be between 1 and 5") := by
  refine ⟨?_, (feedback_rating_validation thirdAttendedStore 4 1).2.2.1 "" 0,
    (feedback_rating_validation thirdAttendedStore 4 1).2.2.2.1 "" 0⟩
  have h := (feedback_rating_validation thirdAttendedStore 4 1).2.2.2.2 5 "ok" 7
    ⟨1, 4, "manual"⟩ (Or.inr rfl) rfl rfl
  simpa using h

/-- C9 counterexample: `createEvent` happily stores an event with capacity 0
in a reachable store — no positivity check exists. -/
theorem create_event_capacity_cex :
    (createEvent oneCollegeStore 0 "E" "" "Workshop" 0).2.capacity = 0 ∧
    (createEvent oneCollegeStore 0 "E" "" "Workshop" 0).2 ∈
      (createEvent oneCollegeStore 0 "E" "" "Workshop" 0).1.events ∧
    Reachable (createEvent oneCollegeStore 0 "E" "" "Workshop" 0).1 := by
  refine ⟨rfl, by decide, ?_⟩
  exact Reachable.step_createEvent 0 "E" "" "Workshop" 0
    (Reachable.step_createCollege "U1" Reachable.empty rfl)

/-- C9 (amended): `createEvent` performs no capacity validation: it stores
exactly one new event whose capacity field is the supplied integer, whatever
that integer is — zero and negative values included. -/
theorem create_event_capacity (s : Store) (cid : Nat) (title d ty : String)
    (cap : Int) :
    (createEvent s cid title d ty cap).2.capacity = cap ∧
    (createEvent s cid title d ty cap).1.events =
      s.events ++ [(createEvent s cid title d ty cap).2] ∧
    (createEvent s cid title d ty cap).2 ∈ (createEvent s cid title d ty cap).1.events := by
  refine ⟨rfl, rfl, ?_⟩
  show (createEvent s cid title d ty cap).2 ∈
    s.events ++ [(createEvent s cid title d ty cap).2]
  exact List.mem_append_right _ (List.mem_singleton_self _)

/-- C10: `topActiveStudents` only ever lists students with at least one
attendance: each row comes from a student matching the college filter whose
attendance count is positive, rows are sorted by that count descending, and
the length is the minimum of `limit` and the number of such students — fewer
than `limit` rows when few students attended anything. -/
theorem top_active_students_spec (s : Store) (cid : Option Nat) (limit : Nat) :
    (∀ row ∈ topActiveStudents s cid limit, 0 < row.attendanceCount ∧
      ∃ st ∈ collegeStudents s cid, studentAttCount s st.id ≠ 0 ∧
        row = activeRowOf s st ∧ row.attendanceCount = studentAttCount s st.id) ∧
    (topActiveStudents s cid limit).length =
      min limit ((collegeStudents s cid).filter
        (fun st => studentAttCount s st.id != 0)).length ∧
    SortedDescOn ActiveStudentRow.attendanceCount (topActiveStudents s cid limit) := by
  refine ⟨?_, ?_, sortedDescOn_take limit (sorted_sortDescBy _ _)⟩
  · intro row hrow
    have h1 : row ∈ sortDescBy ActiveStudentRow.attendanceCount
        (((collegeStudents s cid).filter
          (fun st => studentAttCount s st.id != 0)).map (activeRowOf s)) :=
      List.mem_of_mem_take hrow
    have h2 := (perm_sortDescBy ActiveStudentRow.attendanceCount _).mem_iff.mp h1
    obtain ⟨st, hst, rfl⟩ := List.mem_map.mp h2
    obtain ⟨hstMem, hstNe⟩ := List.mem_filter.mp hst
    simp only [bne_iff_ne, ne_eq] at hstNe
    exact ⟨Nat.pos_of_ne_zero hstNe, st, hstMem, hstNe, rfl, rfl⟩
  · show ((sortDescBy ActiveStudentRow.attendanceCount
      (((collegeStudents s cid).filter
        (fun st => studentAttCount s st.id != 0)).map (activeRowOf s))).take limit).length =
      min limit ((collegeStudents s cid).filter
        (fun st => studentAttCount s st.id != 0)).length
    rw [List.length_take, (perm_sortDescBy _ _).length_eq, List.length_map]

/-- C10 witness: with three students of which only one ever attended, a
limit of 3 yields a single row, for that student, with a positive count. -/
theorem top_active_students_spec_witness :
    (⟨1, "A", "a@u.edu", 1⟩ : ActiveStudentRow) ∈
      topActiveStudents thirdAttendedStore none 3 ∧
    0 < (⟨1, "A", "a@u.edu", 1⟩ : ActiveStudentRow).attendanceCount ∧
    (topActiveStudents thirdAttendedStore none 3).length = 1 := by
  have hmem : (⟨1, "A", "a@u.edu", 1⟩ : ActiveStudentRow) ∈
      topActiveStudents thirdAttendedStore none 3 := by decide
  have h := (top_active_students_spec thirdAttendedStore none 3).1 _ hmem
  exact ⟨hmem, h.1, by decide⟩

end EventMgmt
